import Mathlib

/-!
Shallow embedding of the Solar Orbiter dashboard (`src/app.py`).

The program loads three CSV tables (`solar_data`, `solar_data2`, `shap_values`),
builds a static layout (instrument checklist, date-range picker) from
`solar_data`, and registers one callback `update_graphs` that, given the
selected instrument names and a date interval, filters each table to the rows
whose `Date` lies in the closed interval and produces four figure
specifications: a time-series figure, a correlation heatmap, an anomaly-score
scatter and a SHAP feature-importance figure.

Modelling choices:
* a dataframe is a list of column names (the columns other than `Date`, in CSV
  order, with `Date` known to be the leading column) together with a list of
  rows, each row carrying its date and the rational values of the non-date
  columns;
* dates are any linearly ordered type (the program compares ISO date strings
  with the usual string order, which is a linear order);
* a pandas column lookup `df[c]` raises `KeyError` when `c` is not a column,
  so column access returns `Option`; the callback as a whole returns `Option`
  of the four figures, `none` modelling an uncaught exception;
* numeric cell values are rationals and the Pearson correlation is computed in
  exact real arithmetic following pandas `nancorr`: an entry is `none`
  (pandas `NaN`) when there are no observations or when the product of the
  centred sums of squares is zero, and otherwise
  `Σ dx·dy / (√(Σ dx²) · √(Σ dy²))`.
-/

set_option linter.unusedSectionVars false

namespace SolarDashboard

/-- Row of a loaded table: its `Date` entry plus the values of the remaining
columns, in column order. -/
structure Row (D : Type) where
  date : D
  vals : List ℚ
deriving DecidableEq

/-- Loaded table: the names of the non-date columns (CSV order) and the rows.
The full pandas column list is `"Date"` followed by `cols`. -/
structure DataFrame (D : Type) where
  cols : List String
  rows : List (Row D)
deriving DecidableEq

variable {D : Type} [LinearOrder D]

/-- Date column of a table, as the list of the rows' dates (pandas
`df['Date']`). -/
def DataFrame.dates (df : DataFrame D) : List D :=
  df.rows.map (fun r => r.date)

/-- Column lookup `df[c]` for a non-date column: `none` models the `KeyError`
pandas raises when `c` is not a column. -/
def DataFrame.col (df : DataFrame D) (c : String) : Option (List ℚ) :=
  (df.cols.findIdx? (fun s => s == c)).map
    (fun i => df.rows.map (fun r => r.vals.getD i 0))

/-- Full pandas column list of a table: `Date` first, then the value columns. -/
def columns (df : DataFrame D) : List String :=
  "Date" :: df.cols

/-- Date filter of `update_graphs` (app.py lines 91-93):
`df[(df['Date'] >= start_date) & (df['Date'] <= end_date)]`. -/
def filterDates (df : DataFrame D) (start_date end_date : D) : DataFrame D :=
  { cols := df.cols
    rows := df.rows.filter (fun r => decide (start_date ≤ r.date ∧ r.date ≤ end_date)) }

/-- Minimum of the `Date` column, `solar_data['Date'].min()`; `none` models the
`NaN` pandas returns on an empty column. -/
def minDate (df : DataFrame D) : Option D :=
  df.dates.min?

/-- Maximum of the `Date` column, `solar_data['Date'].max()`. -/
def maxDate (df : DataFrame D) : Option D :=
  df.dates.max?

/-- Sequential traversal of a list under `Option`, modelling a Python `for`
loop whose body may raise: the first failure aborts the whole computation. -/
def mapOpt {α β : Type} (f : α → Option β) : List α → Option (List β)
  | [] => some []
  | a :: as => (f a).bind (fun b => (mapOpt f as).map (fun bs => b :: bs))

/-- Scatter trace (`go.Scatter`): x data, y data, display mode, legend name,
optional stack group and optional per-point marker colors. -/
structure Trace (D : Type) where
  x : List D
  y : List ℚ
  mode : String
  name : String
  stackgroup : Option String := none
  markerColors : Option (List String) := none
deriving DecidableEq

/-- Heatmap specification (`go.Heatmap`): the z matrix (entries `none` model
pandas `NaN`) and the two axis label lists. -/
structure Heatmap where
  z : List (List (Option ℝ))
  x : List String
  y : List String

/-- Output of one callback invocation: the four figures, each scatter figure
being its list of traces. -/
structure Figures (D : Type) where
  time_series_fig : List (Trace D)
  correlation_fig : Heatmap
  anomaly_score_fig : List (Trace D)
  shap_feature_importance_fig : List (Trace D)

/-- One `go.Scatter` trace built from a column of `df`: x is the `Date`
column, y the column named `c`, the legend name is `c`. Fails when `c` is not
a column of `df`. -/
def scatterTrace (df : DataFrame D) (mode : String) (sg : Option String)
    (c : String) : Option (Trace D) :=
  (df.col c).map (fun ys =>
    { x := df.dates, y := ys, mode := mode, name := c, stackgroup := sg })

/-- Loop adding one scatter trace per selected name, in selection order. -/
def scatter_fig (df : DataFrame D) (mode : String) (sg : Option String)
    (sel : List String) : Option (List (Trace D)) :=
  mapOpt (scatterTrace df mode sg) sel

/-- Time-series figure (app.py lines 96-106): one `lines+markers` trace per
selected instrument over the filtered instrument table. -/
def time_series_fig (df : DataFrame D) (sel : List String) :
    Option (List (Trace D)) :=
  scatter_fig df "lines+markers" none sel

/-- Mean-centred values of a column, as in pandas `nancorr`: each value minus
the column mean. On an empty column this is the empty list. -/
def dmean (xs : List ℚ) : List ℚ :=
  xs.map (fun v => v - xs.sum / (xs.length : ℚ))

/-- Sum of squares of a list of rationals. -/
def sumSq (xs : List ℚ) : ℚ :=
  (xs.map (fun v => v * v)).sum

/-- Sum of pairwise products of two equally long lists. -/
def sumProd (xs ys : List ℚ) : ℚ :=
  ((xs.zip ys).map (fun p => p.1 * p.2)).sum

/-- One entry of the Pearson correlation matrix, following pandas `nancorr`
with `min_periods = 1`: `NaN` (here `none`) when there are no observations or
when the divisor `√(Σ dx²) · √(Σ dy²)` is zero, otherwise the covariance sum
divided by that divisor. -/
noncomputable def corrEntry (xs ys : List ℚ) : Option ℝ :=
  if xs.length = 0 then none
  else
    let dx := dmean xs
    let dy := dmean ys
    if sumSq dx * sumSq dy = 0 then none
    else some ((sumProd dx dy : ℝ) /
      (Real.sqrt ((sumSq dx : ℚ) : ℝ) * Real.sqrt ((sumSq dy : ℚ) : ℝ)))

/-- Pearson correlation matrix of a list of columns (pandas
`df[selected].corr()`), indexed by the selection order on both axes. -/
noncomputable def corrMatrix (cs : List (List ℚ)) : List (List (Option ℝ)) :=
  cs.map (fun xs => cs.map (fun ys => corrEntry xs ys))

/-- Correlation heatmap figure (app.py lines 109-117):
`z = filtered_data[selected_instruments].corr()`, both axes labelled by the
selection. Fails when a selected name is not a column. -/
noncomputable def correlation_fig (df : DataFrame D) (sel : List String) :
    Option Heatmap :=
  (mapOpt df.col sel).map (fun cs => { z := corrMatrix cs, x := sel, y := sel })

/-- Per-point marker colors of the anomaly trace (app.py line 127):
`['red' if val < 0 else 'blue' for val in filtered_data2['anomaly_score']]`. -/
def anomalyColors (ys : List ℚ) : List String :=
  ys.map (fun v => if v < 0 then "red" else "blue")

/-- Anomaly-score figure (app.py lines 120-135): a single scatter trace over
the filtered anomaly table, x the `Date` column, y the `anomaly_score` column,
with the per-point marker colors. -/
def anomaly_score_fig (df2 : DataFrame D) : Option (List (Trace D)) :=
  (df2.col "anomaly_score").map (fun ys =>
    [{ x := df2.dates, y := ys, mode := "lines+markers",
       name := "Anomaly Score", markerColors := some (anomalyColors ys) }])

/-- SHAP feature-importance figure (app.py lines 143-153): one stacked `lines`
trace per selected feature over the filtered SHAP table. -/
def shap_fig (df : DataFrame D) (sel : List String) :
    Option (List (Trace D)) :=
  scatter_fig df "lines" (some "one") sel

/-- Callback `update_graphs` (app.py lines 81-160): filter the three tables by
the date interval, then build the four figures in program order; the first
failing column lookup aborts the invocation (an uncaught exception). -/
noncomputable def update_graphs (solar_data solar_data2 shap_values : DataFrame D)
    (selected_instruments : List String) (start_date end_date : D) :
    Option (Figures D) :=
  let filtered_data := filterDates solar_data start_date end_date
  let filtered_data2 := filterDates solar_data2 start_date end_date
  let filtered_shap_values := filterDates shap_values start_date end_date
  (time_series_fig filtered_data selected_instruments).bind (fun ts =>
    (correlation_fig filtered_data selected_instruments).bind (fun hm =>
      (anomaly_score_fig filtered_data2).bind (fun an =>
        (shap_fig filtered_shap_values selected_instruments).map (fun shp =>
          { time_series_fig := ts
            correlation_fig := hm
            anomaly_score_fig := an
            shap_feature_importance_fig := shp }))))

/-- Instrument checklist control: its option list and its default value. -/
structure Checklist where
  options : List String
  value : List String

/-- Date-range picker control: allowed bounds and default range. -/
structure DatePickerRange (D : Type) where
  min_date_allowed : Option D
  max_date_allowed : Option D
  start_date : Option D
  end_date : Option D

/-- Static layout pieces parameterised by the instrument table. -/
structure AppLayout (D : Type) where
  instrument_checklist : Checklist
  date_picker_range : DatePickerRange D

/-- Layout builder (app.py lines 35-52): checklist options are
`solar_data.columns[1:-2]` (drop `Date` and the two trailing anomaly
columns), the default value is `[solar_data.columns[1]]` (which raises when
there is no second column, hence `Option`), and the date picker is bounded by
and defaults to the min/max of the `Date` column. -/
def app_layout (solar_data : DataFrame D) : Option (AppLayout D) :=
  ((columns solar_data)[1]?).map (fun first =>
    { instrument_checklist :=
        { options := ((columns solar_data).drop 1).take ((columns solar_data).length - 3)
          value := [first] }
      date_picker_range :=
        { min_date_allowed := minDate solar_data
          max_date_allowed := maxDate solar_data
          start_date := minDate solar_data
          end_date := maxDate solar_data } })

/-- Process state: the three module-level tables loaded at startup. -/
structure Env (D : Type) where
  solar_data : DataFrame D
  solar_data2 : DataFrame D
  shap_values : DataFrame D

/-- State-passing form of the callback. The body of `update_graphs` contains
no assignment to the module-level tables (pandas boolean-mask filtering
returns new frames), so the environment after the call is the environment
before it. -/
noncomputable def update_graphs_env (env : Env D) (sel : List String)
    (s e : D) : Env D × Option (Figures D) :=
  (env, update_graphs env.solar_data env.solar_data2 env.shap_values sel s e)

/-! Helper lemmas about the embedding. -/

lemma dates_length (df : DataFrame D) : df.dates.length = df.rows.length :=
  List.length_map _ _

lemma col_isSome_iff (df : DataFrame D) (c : String) :
    (df.col c).isSome ↔ c ∈ df.cols := by
  simp [DataFrame.col, Option.isSome_map', List.findIdx?_isSome, List.any_eq_true]

lemma col_length {df : DataFrame D} {c : String} {ys : List ℚ}
    (h : df.col c = some ys) : ys.length = df.rows.length := by
  simp only [DataFrame.col, Option.map_eq_some'] at h
  obtain ⟨i, -, rfl⟩ := h
  simp

lemma col_of_rows_nil {df : DataFrame D} {c : String}
    (hc : c ∈ df.cols) (h : df.rows = []) : df.col c = some [] := by
  obtain ⟨ys, hys⟩ := Option.isSome_iff_exists.mp ((col_isSome_iff df c).mpr hc)
  have hl := col_length hys
  rw [h, List.length_nil, List.length_eq_zero] at hl
  rw [hys, hl]

lemma mapOpt_nil {α β : Type} (f : α → Option β) : mapOpt f [] = some [] := rfl

lemma mapOpt_eq_some_iff {α β : Type} {f : α → Option β} :
    ∀ {l : List α} {bs : List β},
      mapOpt f l = some bs ↔ List.Forall₂ (fun a b => f a = some b) l bs := by
  intro l
  induction l with
  | nil =>
    intro bs
    constructor
    · intro h
      cases h
      exact List.Forall₂.nil
    · intro h
      cases h
      rfl
  | cons a as ih =>
    intro bs
    constructor
    · intro h
      simp only [mapOpt, Option.bind_eq_some, Option.map_eq_some'] at h
      obtain ⟨b, hb, bs', hbs', rfl⟩ := h
      exact List.Forall₂.cons hb (ih.mp hbs')
    · intro h
      cases h with
      | cons hab htl =>
        simp only [mapOpt, Option.bind_eq_some, Option.map_eq_some']
        exact ⟨_, hab, _, ih.mpr htl, rfl⟩

lemma mapOpt_isSome {α β : Type} {f : α → Option β} {l : List α}
    (h : ∀ a ∈ l, (f a).isSome) : ∃ bs, mapOpt f l = some bs := by
  induction l with
  | nil => exact ⟨[], rfl⟩
  | cons a as ih =>
    obtain ⟨b, hb⟩ := Option.isSome_iff_exists.mp (h a (List.mem_cons_self a as))
    obtain ⟨bs, hbs⟩ := ih (fun x hx => h x (List.mem_cons_of_mem a hx))
    exact ⟨b :: bs, by simp [mapOpt, hb, hbs]⟩

lemma forallTwo_mem_right {α β : Type} {R : α → β → Prop} {l : List α}
    {bs : List β} (h : List.Forall₂ R l bs) : ∀ b ∈ bs, ∃ a ∈ l, R a b := by
  induction h with
  | nil => simp
  | cons hab htl ih =>
    intro b hb
    rcases List.mem_cons.mp hb with rfl | hb
    · exact ⟨_, List.mem_cons_self _ _, hab⟩
    · obtain ⟨a, ha, hr⟩ := ih b hb
      exact ⟨a, List.mem_cons_of_mem _ ha, hr⟩

lemma mem_filterDates_rows {df : DataFrame D} {s e : D} {r : Row D} :
    r ∈ (filterDates df s e).rows ↔ r ∈ df.rows ∧ s ≤ r.date ∧ r.date ≤ e := by
  simp [filterDates, List.mem_filter]

lemma filterDates_cols (df : DataFrame D) (s e : D) :
    (filterDates df s e).cols = df.cols := rfl

lemma filterDates_rows_nil {df : DataFrame D} {s e : D}
    (h : ∀ r ∈ df.rows, ¬(s ≤ r.date ∧ r.date ≤ e)) :
    (filterDates df s e).rows = [] := by
  simp only [filterDates, List.filter_eq_nil_iff, decide_eq_true_eq]
  exact h

lemma scatterTrace_eq_some {df : DataFrame D} {m : String} {sg : Option String}
    {c : String} {t : Trace D} (h : scatterTrace df m sg c = some t) :
    t.name = c ∧ t.x = df.dates ∧ df.col c = some t.y ∧ t.mode = m ∧
      t.stackgroup = sg ∧ t.markerColors = none := by
  simp only [scatterTrace, Option.map_eq_some'] at h
  obtain ⟨ys, hys, rfl⟩ := h
  exact ⟨rfl, rfl, hys, rfl, rfl, rfl⟩

lemma scatter_fig_eq_some_iff {df : DataFrame D} {m : String}
    {sg : Option String} {sel : List String} {ts : List (Trace D)} :
    scatter_fig df m sg sel = some ts ↔
      List.Forall₂ (fun c t => scatterTrace df m sg c = some t) sel ts :=
  mapOpt_eq_some_iff

lemma scatter_fig_names {df : DataFrame D} {m : String} {sg : Option String}
    {sel : List String} {ts : List (Trace D)}
    (h : scatter_fig df m sg sel = some ts) :
    ts.map (fun t => t.name) = sel := by
  have h2 := scatter_fig_eq_some_iff.mp h
  clear h
  induction h2 with
  | nil => rfl
  | cons hab _ ih => simp [ih, (scatterTrace_eq_some hab).1]

lemma scatter_fig_mem {df : DataFrame D} {m : String} {sg : Option String}
    {sel : List String} {ts : List (Trace D)}
    (h : scatter_fig df m sg sel = some ts) :
    ∀ t ∈ ts, t.x = df.dates ∧ t.y.length = df.rows.length := by
  intro t ht
  obtain ⟨c, -, htr⟩ := forallTwo_mem_right (scatter_fig_eq_some_iff.mp h) t ht
  obtain ⟨-, hx, hcol, -, -, -⟩ := scatterTrace_eq_some htr
  exact ⟨hx, col_length hcol⟩

lemma scatter_fig_isSome {df : DataFrame D} {m : String} {sg : Option String}
    {sel : List String} (h : ∀ c ∈ sel, c ∈ df.cols) :
    ∃ ts, scatter_fig df m sg sel = some ts :=
  mapOpt_isSome (fun c hc => by
    simp only [scatterTrace, Option.isSome_map']
    exact (col_isSome_iff df c).mpr (h c hc))

lemma anomaly_score_fig_eq_some_iff {df2 : DataFrame D} {an : List (Trace D)} :
    anomaly_score_fig df2 = some an ↔
      ∃ ys, df2.col "anomaly_score" = some ys ∧
        an = [{ x := df2.dates, y := ys, mode := "lines+markers",
                name := "Anomaly Score",
                markerColors := some (anomalyColors ys) }] := by
  simp only [anomaly_score_fig, Option.map_eq_some']
  constructor
  · rintro ⟨ys, h1, h2⟩
    exact ⟨ys, h1, h2.symm⟩
  · rintro ⟨ys, h1, h2⟩
    exact ⟨ys, h1, h2.symm⟩

lemma correlation_fig_eq_some_iff {df : DataFrame D} {sel : List String}
    {hm : Heatmap} :
    correlation_fig df sel = some hm ↔
      ∃ cs, mapOpt df.col sel = some cs ∧
        hm = { z := corrMatrix cs, x := sel, y := sel } := by
  simp only [correlation_fig, Option.map_eq_some']
  constructor
  · rintro ⟨cs, h1, h2⟩
    exact ⟨cs, h1, h2.symm⟩
  · rintro ⟨cs, h1, h2⟩
    exact ⟨cs, h1, h2.symm⟩

lemma update_graphs_eq_some_iff {d d2 sh : DataFrame D} {sel : List String}
    {s e : D} {figs : Figures D} :
    update_graphs d d2 sh sel s e = some figs ↔
      time_series_fig (filterDates d s e) sel = some figs.time_series_fig ∧
      correlation_fig (filterDates d s e) sel = some figs.correlation_fig ∧
      anomaly_score_fig (filterDates d2 s e) = some figs.anomaly_score_fig ∧
      shap_fig (filterDates sh s e) sel = some figs.shap_feature_importance_fig := by
  cases figs with
  | mk ts hm an shp =>
    simp only [update_graphs, Option.bind_eq_some, Option.map_eq_some',
      Figures.mk.injEq]
    constructor
    · rintro ⟨ts', hts, hm', hhm, an', han, shp', hshp, rfl, rfl, rfl, rfl⟩
      exact ⟨hts, hhm, han, hshp⟩
    · rintro ⟨hts, hhm, han, hshp⟩
      exact ⟨ts, hts, hm, hhm, an, han, shp, hshp, rfl, rfl, rfl, rfl⟩

lemma update_graphs_isSome {d d2 sh : DataFrame D} {sel : List String}
    {s e : D} (hd : ∀ a ∈ sel, a ∈ d.cols) (hsh : ∀ a ∈ sel, a ∈ sh.cols)
    (han : "anomaly_score" ∈ d2.cols) :
    ∃ figs, update_graphs d d2 sh sel s e = some figs := by
  obtain ⟨ts, hts⟩ :=
    @scatter_fig_isSome D _ (filterDates d s e) "lines+markers" none sel hd
  obtain ⟨cs, hcs⟩ := mapOpt_isSome (f := (filterDates d s e).col)
    (l := sel) (fun c hc => (col_isSome_iff _ c).mpr (hd c hc))
  obtain ⟨ys, hys⟩ := Option.isSome_iff_exists.mp
    ((col_isSome_iff (filterDates d2 s e) _).mpr han)
  obtain ⟨shp, hshp⟩ :=
    @scatter_fig_isSome D _ (filterDates sh s e) "lines" (some "one") sel hsh
  refine ⟨⟨ts, { z := corrMatrix cs, x := sel, y := sel },
    [{ x := (filterDates d2 s e).dates, y := ys, mode := "lines+markers",
       name := "Anomaly Score", markerColors := some (anomalyColors ys) }],
    shp⟩, ?_⟩
  rw [update_graphs_eq_some_iff]
  refine ⟨hts, ?_, ?_, hshp⟩
  · exact correlation_fig_eq_some_iff.mpr ⟨cs, hcs, rfl⟩
  · exact anomaly_score_fig_eq_some_iff.mpr ⟨ys, hys, rfl⟩

lemma sumSq_nonneg (xs : List ℚ) : 0 ≤ sumSq xs := by
  refine List.sum_nonneg ?_
  intro x hx
  simp only [List.mem_map] at hx
  obtain ⟨v, -, rfl⟩ := hx
  exact mul_self_nonneg v

lemma sumProd_self (xs : List ℚ) : sumProd xs xs = sumSq xs := by
  induction xs with
  | nil => rfl
  | cons a as ih =>
    simp only [sumProd, sumSq, List.zip_cons_cons, List.map_cons,
      List.sum_cons] at ih ⊢
    rw [ih]

lemma corrEntry_nil_left (ys : List ℚ) : corrEntry [] ys = none := by
  simp [corrEntry]

lemma corrEntry_self (xs : List ℚ) :
    corrEntry xs xs = if sumSq (dmean xs) = 0 then none else some 1 := by
  by_cases h0 : xs.length = 0
  · rw [List.length_eq_zero] at h0
    subst h0
    simp [corrEntry, dmean, sumSq]
  · rw [corrEntry, if_neg h0]
    simp only [sumProd_self]
    by_cases hq0 : sumSq (dmean xs) = 0
    · simp [hq0]
    · have hqnn : (0 : ℚ) ≤ sumSq (dmean xs) := sumSq_nonneg _
      rw [if_neg (mul_ne_zero hq0 hq0), if_neg hq0]
      congr 1
      rw [Real.mul_self_sqrt (by exact_mod_cast hqnn)]
      exact div_self (by exact_mod_cast hq0)

lemma min?_le_of_mem {α : Type} [LinearOrder α] {xs : List α} {m a : α}
    (h : xs.min? = some m) (ha : a ∈ xs) : m ≤ a := by
  haveI : Std.Antisymm (fun (x1 x2 : α) => x1 ≤ x2) :=
    ⟨fun h1 h2 => le_antisymm h1 h2⟩
  rw [List.min?_eq_some_iff] at h
  · exact h.2 a ha
  · exact le_refl
  · exact fun a b => min_choice a b
  · exact fun a b c => le_min_iff

lemma le_max?_of_mem {α : Type} [LinearOrder α] {xs : List α} {m a : α}
    (h : xs.max? = some m) (ha : a ∈ xs) : a ≤ m := by
  haveI : Std.Antisymm (fun (x1 x2 : α) => x1 ≤ x2) :=
    ⟨fun h1 h2 => le_antisymm h1 h2⟩
  rw [List.max?_eq_some_iff] at h
  · exact h.2 a ha
  · exact le_refl
  · exact fun a b => max_choice a b
  · exact fun a b c => max_le_iff

/-! Concrete tables used by witnesses and counterexamples (dates as naturals). -/

/-- Small instrument table: two instrument columns `A`, `B` followed by the
two trailing anomaly-related columns, three dated rows. -/
def exInstr : DataFrame ℕ :=
  { cols := ["A", "B", "anomaly", "anomaly_score"]
    rows := [⟨1, [1, 5, 0, 0]⟩, ⟨2, [2, 4, 0, 1]⟩, ⟨3, [4, 3, 0, 0]⟩] }

/-- Small anomaly table with one `anomaly_score` column. -/
def exAnom : DataFrame ℕ :=
  { cols := ["anomaly_score"]
    rows := [⟨1, [-1]⟩, ⟨2, [0]⟩, ⟨3, [2]⟩] }

/-- Small SHAP table with columns `A`, `B`. -/
def exShap : DataFrame ℕ :=
  { cols := ["A", "B"]
    rows := [⟨1, [1, 4]⟩, ⟨2, [2, 5]⟩, ⟨3, [0, 1]⟩] }

/-- Single-row instrument table (date 0, one column `A`). -/
def oneRowInstr : DataFrame ℕ :=
  { cols := ["A"], rows := [⟨0, [5]⟩] }

/-- Single-row anomaly table. -/
def oneRowAnom : DataFrame ℕ :=
  { cols := ["anomaly_score"], rows := [⟨0, [0]⟩] }

/-- Single-row SHAP table. -/
def oneRowShap : DataFrame ℕ :=
  { cols := ["A"], rows := [⟨0, [1]⟩] }

/-! Claim theorems. -/

/-- C1: the date filter applied by `update_graphs` to each loaded table keeps
a row exactly when its `Date` lies in the closed interval
`[start_date, end_date]` (both bounds inclusive), and preserves the original
row order (the filtered rows form a sublist of the original rows). -/
theorem C1_filter_closed_interval (df : DataFrame D) (s e : D) :
    (∀ r, r ∈ (filterDates df s e).rows ↔
      r ∈ df.rows ∧ s ≤ r.date ∧ r.date ≤ e) ∧
    (filterDates df s e).rows.Sublist df.rows :=
  ⟨fun _ => mem_filterDates_rows, List.filter_sublist _⟩

/-- Witness for C1 at the concrete instrument table and interval `[1, 2]`. -/
theorem C1_filter_closed_interval_witness :
    (∀ r, r ∈ (filterDates exInstr 1 2).rows ↔
      r ∈ exInstr.rows ∧ 1 ≤ r.date ∧ r.date ≤ 2) ∧
    (filterDates exInstr 1 2).rows.Sublist exInstr.rows :=
  C1_filter_closed_interval exInstr 1 2

/-- C2: when the callback succeeds on a non-empty selection, the time-series
figure has exactly one trace per selected instrument, in selection order (the
list of trace names equals the selection), and each trace's x and y data have
equal length, namely the number of instrument-table rows whose date lies in
the interval. -/
theorem C2_time_series_shape (d d2 sh : DataFrame D) (sel : List String)
    (s e : D) (figs : Figures D) (hne : sel ≠ [])
    (hup : update_graphs d d2 sh sel s e = some figs) :
    figs.time_series_fig.map (fun t => t.name) = sel ∧
    ∀ t ∈ figs.time_series_fig,
      t.x.length = (filterDates d s e).rows.length ∧
      t.y.length = (filterDates d s e).rows.length := by
  have h := (update_graphs_eq_some_iff.mp hup).1
  refine ⟨scatter_fig_names h, ?_⟩
  intro t ht
  obtain ⟨hx, hy⟩ := scatter_fig_mem h t ht
  exact ⟨by rw [hx, dates_length], hy⟩

/-- Witness for C2 on concrete tables: selection `["A", "B"]` over the dates
`[1, 2]` (two of the three rows). -/
theorem C2_time_series_shape_witness :
    ∃ figs, update_graphs exInstr exAnom exShap ["A", "B"] (1 : ℕ) 2 = some figs ∧
      (figs.time_series_fig.map (fun t => t.name) = ["A", "B"] ∧
       ∀ t ∈ figs.time_series_fig,
         t.x.length = (filterDates exInstr 1 2).rows.length ∧
         t.y.length = (filterDates exInstr 1 2).rows.length) := by
  obtain ⟨figs, h⟩ := @update_graphs_isSome ℕ _ exInstr exAnom exShap
    ["A", "B"] 1 2 (by decide) (by decide) (by decide)
  exact ⟨figs, h, C2_time_series_shape exInstr exAnom exShap _ _ _ figs
    (by decide) h⟩

/-- C3: in the anomaly figure the marker color list is computed per point:
position `i` is `"red"` (the alert class) exactly when the `i`-th anomaly
score is strictly negative, and `"blue"` (the normal class) exactly when it
is non-negative; in particular a score of `-1/2` yields `"red"` and a score
of `0` yields `"blue"`. -/
theorem C3_anomaly_classification (df2 : DataFrame D) (t : Trace D)
    (cs : List String) (h : anomaly_score_fig df2 = some [t])
    (hcs : t.markerColors = some cs) :
    cs.length = t.y.length ∧
    (∀ (i : ℕ) (v : ℚ), t.y[i]? = some v →
      (cs[i]? = some "red" ↔ v < 0) ∧ (cs[i]? = some "blue" ↔ 0 ≤ v)) ∧
    (∀ (i : ℕ), t.y[i]? = some (-(1 : ℚ)/2) → cs[i]? = some "red") ∧
    (∀ (i : ℕ), t.y[i]? = some (0 : ℚ) → cs[i]? = some "blue") := by
  obtain ⟨ys, -, heq⟩ := anomaly_score_fig_eq_some_iff.mp h
  simp only [List.cons.injEq, and_true] at heq
  subst heq
  simp only at hcs
  have hcs2 : cs = anomalyColors ys := (Option.some.inj hcs).symm
  subst hcs2
  have hpt : ∀ (i : ℕ) (v : ℚ), ys[i]? = some v →
      (anomalyColors ys)[i]? = some (if v < 0 then "red" else "blue") := by
    intro i v hv
    rw [anomalyColors, List.getElem?_map, hv]
    rfl
  refine ⟨by simp [anomalyColors], ?_, ?_, ?_⟩
  · intro i v hv
    have hi := hpt i v hv
    constructor
    · rw [hi]
      by_cases hv0 : v < 0
      · rw [if_pos hv0]
        exact iff_of_true rfl hv0
      · rw [if_neg hv0]
        exact iff_of_false (fun hc => absurd (Option.some.inj hc) (by decide)) hv0
    · rw [hi]
      by_cases hv0 : v < 0
      · rw [if_pos hv0]
        exact iff_of_false (fun hc => absurd (Option.some.inj hc) (by decide))
          (not_le.mpr hv0)
      · rw [if_neg hv0]
        exact iff_of_true rfl (not_lt.mp hv0)
  · intro i hv
    have hi := hpt i _ hv
    rw [hi, if_pos (by norm_num)]
  · intro i hv
    have hi := hpt i _ hv
    rw [hi, if_neg (by norm_num)]

/-- Witness for C3 on the concrete anomaly table: scores `[-1, 0, 2]` give
colors `["red", "blue", "blue"]`. -/
theorem C3_anomaly_classification_witness :
    (["red", "blue", "blue"] : List String).length =
      ([-1, 0, 2] : List ℚ).length ∧
    (∀ (i : ℕ) (v : ℚ), ([-1, 0, 2] : List ℚ)[i]? = some v →
      ((["red", "blue", "blue"] : List String)[i]? = some "red" ↔ v < 0) ∧
      ((["red", "blue", "blue"] : List String)[i]? = some "blue" ↔ 0 ≤ v)) ∧
    (∀ (i : ℕ), ([-1, 0, 2] : List ℚ)[i]? = some (-(1 : ℚ)/2) →
      (["red", "blue", "blue"] : List String)[i]? = some "red") ∧
    (∀ (i : ℕ), ([-1, 0, 2] : List ℚ)[i]? = some (0 : ℚ) →
      (["red", "blue", "blue"] : List String)[i]? = some "blue") :=
  C3_anomaly_classification exAnom
    { x := [1, 2, 3], y := [-1, 0, 2], mode := "lines+markers",
      name := "Anomaly Score", markerColors := some ["red", "blue", "blue"] }
    ["red", "blue", "blue"] (by decide) rfl

/-- C4 as stated is false: with the single selected instrument `A` and an
interval keeping exactly the one row of `oneRowInstr`, the 1×1 correlation
matrix entry is `NaN` (modelled `none`), not `1.0`: pandas `nancorr` computes
a zero divisor from a single observation and returns `NaN`. -/
theorem C4_counterexample :
    (update_graphs oneRowInstr oneRowAnom oneRowShap ["A"] 0 0).map
        (fun figs => figs.correlation_fig.z) = some [[(none : Option ℝ)]] ∧
    some [[(none : Option ℝ)]] ≠ some [[(some (1 : ℝ))]] := by
  constructor
  · have hz : corrEntry [(5 : ℚ)] [5] = none := by
      have h1 : dmean [(5 : ℚ)] = [0] := by norm_num [dmean]
      simp [corrEntry, h1, sumSq]
    obtain ⟨figs, hfigs⟩ := @update_graphs_isSome ℕ _ oneRowInstr oneRowAnom
      oneRowShap ["A"] 0 0 (by decide) (by decide) (by decide)
    have hco := (update_graphs_eq_some_iff.mp hfigs).2.1
    obtain ⟨cs, hcs, hhm⟩ := correlation_fig_eq_some_iff.mp hco
    have hcol : (filterDates oneRowInstr 0 0).col "A" = some [(5 : ℚ)] := by
      decide
    have hcs2 : mapOpt (filterDates oneRowInstr 0 0).col ["A"] =
        some [[(5 : ℚ)]] := by
      simp [mapOpt, hcol]
    rw [hcs2] at hcs
    obtain rfl := Option.some.inj hcs
    rw [hfigs, Option.map_some']
    rw [hhm]
    simp [corrMatrix, hz]
  · simp

/-- C4 amended: with exactly one selected instrument (and valid columns) the
callback succeeds and the correlation matrix is always 1×1; its sole entry is
`1.0` exactly when the date-filtered column has nonzero centred sum of
squares (at least two rows and not all values equal), and `NaN` (`none`)
otherwise. -/
theorem C4_single_instrument (d d2 sh : DataFrame D) (a : String) (s e : D)
    (ha : a ∈ d.cols) (hsh : a ∈ sh.cols) (han : "anomaly_score" ∈ d2.cols) :
    ∃ figs, update_graphs d d2 sh [a] s e = some figs ∧
      ∃ xs, (filterDates d s e).col a = some xs ∧
        figs.correlation_fig.z =
          [[if sumSq (dmean xs) = 0 then none else some (1 : ℝ)]] := by
  obtain ⟨figs, hfigs⟩ := update_graphs_isSome
    (fun x hx => by rw [List.mem_singleton.mp hx]; exact ha)
    (fun x hx => by rw [List.mem_singleton.mp hx]; exact hsh) han
  refine ⟨figs, hfigs, ?_⟩
  have hco := (update_graphs_eq_some_iff.mp hfigs).2.1
  obtain ⟨cs, hcs, hhm⟩ := correlation_fig_eq_some_iff.mp hco
  have h2 := mapOpt_eq_some_iff.mp hcs
  cases h2 with
  | cons hx htl =>
    cases htl
    refine ⟨_, hx, ?_⟩
    rw [hhm]
    simp [corrMatrix, corrEntry_self]

/-- Witness for the amended C4: instrument `A` over the full range `[1, 3]`
of the concrete table. -/
theorem C4_single_instrument_witness :
    ∃ figs, update_graphs exInstr exAnom exShap ["A"] (1 : ℕ) 3 = some figs ∧
      ∃ xs, (filterDates exInstr 1 3).col "A" = some xs ∧
        figs.correlation_fig.z =
          [[if sumSq (dmean xs) = 0 then none else some (1 : ℝ)]] :=
  C4_single_instrument exInstr exAnom exShap "A" 1 3 (by decide) (by decide)
    (by decide)

/-- C5: on degenerate input the callback still succeeds: when the date
interval excludes every row of every table, all four figures contain zero
data points (every trace has empty x and y data and every correlation entry
is `NaN`); and when the selection is empty — for any date interval — the
time-series figure has no traces and the correlation matrix and its axis
labels are empty. -/
theorem C5_degenerate_inputs (d d2 sh : DataFrame D) (sel : List String)
    (s e : D) (hd : ∀ a ∈ sel, a ∈ d.cols) (hsh : ∀ a ∈ sel, a ∈ sh.cols)
    (han : "anomaly_score" ∈ d2.cols) :
    ((∀ r ∈ d.rows, ¬(s ≤ r.date ∧ r.date ≤ e)) →
     (∀ r ∈ d2.rows, ¬(s ≤ r.date ∧ r.date ≤ e)) →
     (∀ r ∈ sh.rows, ¬(s ≤ r.date ∧ r.date ≤ e)) →
      ∃ figs, update_graphs d d2 sh sel s e = some figs ∧
        (∀ t ∈ figs.time_series_fig, t.x = [] ∧ t.y = []) ∧
        (∀ row ∈ figs.correlation_fig.z, ∀ cell ∈ row, cell = none) ∧
        (∀ t ∈ figs.anomaly_score_fig, t.x = [] ∧ t.y = []) ∧
        (∀ t ∈ figs.shap_feature_importance_fig, t.x = [] ∧ t.y = [])) ∧
    (∃ figs, update_graphs d d2 sh [] s e = some figs ∧
      figs.time_series_fig = [] ∧ figs.correlation_fig.z = [] ∧
      figs.correlation_fig.x = [] ∧ figs.correlation_fig.y = [] ∧
      figs.shap_feature_importance_fig = []) := by
  constructor
  · intro h1 h2 h3
    have hdnil : (filterDates d s e).rows = [] := filterDates_rows_nil h1
    have hd2nil : (filterDates d2 s e).rows = [] := filterDates_rows_nil h2
    have hshnil : (filterDates sh s e).rows = [] := filterDates_rows_nil h3
    obtain ⟨figs, hfigs⟩ := update_graphs_isSome hd hsh han
    obtain ⟨hts, hco, han2, hshp⟩ := update_graphs_eq_some_iff.mp hfigs
    refine ⟨figs, hfigs, ?_, ?_, ?_, ?_⟩
    · intro t ht
      obtain ⟨hx, hy⟩ := scatter_fig_mem hts t ht
      rw [hdnil] at hy
      refine ⟨?_, List.length_eq_zero.mp hy⟩
      rw [hx]
      simp [DataFrame.dates, hdnil]
    · intro row hrow cell hcell
      obtain ⟨cs, hcs, hhm⟩ := correlation_fig_eq_some_iff.mp hco
      rw [hhm] at hrow
      simp only [corrMatrix, List.mem_map] at hrow
      obtain ⟨x, hxmem, rfl⟩ := hrow
      simp only [List.mem_map] at hcell
      obtain ⟨y, -, rfl⟩ := hcell
      obtain ⟨c, -, hcx⟩ := forallTwo_mem_right (mapOpt_eq_some_iff.mp hcs) x hxmem
      have hx0 : x.length = 0 := by simp [col_length hcx, hdnil]
      rw [List.length_eq_zero.mp hx0]
      exact corrEntry_nil_left y
    · intro t ht
      obtain ⟨ys, hys, hane⟩ := anomaly_score_fig_eq_some_iff.mp han2
      rw [hane] at ht
      obtain rfl := List.mem_singleton.mp ht
      have hys0 : ys = [] := by
        have hl := col_length hys
        rw [hd2nil] at hl
        exact List.length_eq_zero.mp hl
      refine ⟨?_, hys0⟩
      show (filterDates d2 s e).dates = []
      simp [DataFrame.dates, hd2nil]
    · intro t ht
      obtain ⟨hx, hy⟩ := scatter_fig_mem hshp t ht
      rw [hshnil] at hy
      refine ⟨?_, List.length_eq_zero.mp hy⟩
      rw [hx]
      simp [DataFrame.dates, hshnil]
  · obtain ⟨ys, hys⟩ := Option.isSome_iff_exists.mp
      ((col_isSome_iff (filterDates d2 s e) _).mpr han)
    refine ⟨⟨[], { z := [], x := [], y := [] },
      [{ x := (filterDates d2 s e).dates, y := ys, mode := "lines+markers",
         name := "Anomaly Score", markerColors := some (anomalyColors ys) }],
      []⟩, ?_, rfl, rfl, rfl, rfl, rfl⟩
    rw [update_graphs_eq_some_iff]
    exact ⟨rfl, rfl, anomaly_score_fig_eq_some_iff.mpr ⟨ys, hys, rfl⟩, rfl⟩

/-- Witness for C5: the interval `[4, 0]` excludes all rows of the concrete
tables (empty-filter case), and the empty selection degenerates over the
ordinary in-range interval `[1, 3]`. -/
theorem C5_degenerate_inputs_witness :
    (∃ figs, update_graphs exInstr exAnom exShap ["A"] (4 : ℕ) 0 = some figs ∧
      (∀ t ∈ figs.time_series_fig, t.x = [] ∧ t.y = []) ∧
      (∀ row ∈ figs.correlation_fig.z, ∀ cell ∈ row, cell = none) ∧
      (∀ t ∈ figs.anomaly_score_fig, t.x = [] ∧ t.y = []) ∧
      (∀ t ∈ figs.shap_feature_importance_fig, t.x = [] ∧ t.y = [])) ∧
    (∃ figs, update_graphs exInstr exAnom exShap [] (1 : ℕ) 3 = some figs ∧
      figs.time_series_fig = [] ∧ figs.correlation_fig.z = [] ∧
      figs.correlation_fig.x = [] ∧ figs.correlation_fig.y = [] ∧
      figs.shap_feature_importance_fig = []) :=
  ⟨(C5_degenerate_inputs exInstr exAnom exShap ["A"] 4 0 (by decide)
      (by decide) (by decide)).1 (by decide) (by decide) (by decide),
   (C5_degenerate_inputs exInstr exAnom exShap ["A"] 1 3 (by decide)
      (by decide) (by decide)).2⟩

/-- C6: filtering a table with start equal to the minimum of its `Date`
column and end equal to its maximum reproduces the table unchanged, row for
row. -/
theorem C6_round_trip (df : DataFrame D) (mn mx : D)
    (hmn : minDate df = some mn) (hmx : maxDate df = some mx) :
    filterDates df mn mx = df := by
  cases df with
  | mk cols rows =>
    simp only [filterDates, DataFrame.mk.injEq, true_and]
    refine List.filter_eq_self.mpr ?_
    intro r hr
    refine decide_eq_true ?_
    exact ⟨min?_le_of_mem hmn (List.mem_map_of_mem _ hr),
      le_max?_of_mem hmx (List.mem_map_of_mem _ hr)⟩

/-- Witness for C6 on the concrete instrument table (dates 1..3). -/
theorem C6_round_trip_witness : filterDates exInstr 1 3 = exInstr :=
  C6_round_trip exInstr 1 3 (by decide) (by decide)

/-- C7: the callback has no side effects: in state-passing form it returns
the environment of loaded tables unchanged, and its output depends only on
its arguments and the three tables (equal tables give equal output). -/
theorem C7_no_side_effects (env env2 : Env D) (sel : List String) (s e : D)
    (h1 : env.solar_data = env2.solar_data)
    (h2 : env.solar_data2 = env2.solar_data2)
    (h3 : env.shap_values = env2.shap_values) :
    (update_graphs_env env sel s e).1 = env ∧
    (update_graphs_env env sel s e).2 = (update_graphs_env env2 sel s e).2 :=
  ⟨rfl, by simp only [update_graphs_env, h1, h2, h3]⟩

/-- Concrete environment of the three example tables. -/
def exEnv : Env ℕ :=
  ⟨exInstr, exAnom, exShap⟩

/-- Witness for C7 at a concrete environment and inputs. -/
theorem C7_no_side_effects_witness :
    (update_graphs_env exEnv ["A"] (1 : ℕ) 3).1 = exEnv ∧
    (update_graphs_env exEnv ["A"] (1 : ℕ) 3).2 =
      (update_graphs_env exEnv ["A"] 1 3).2 :=
  C7_no_side_effects exEnv exEnv ["A"] 1 3 rfl rfl rfl

/-- C8: the layout builder succeeds on a table with at least four columns
(date column, at least one instrument, two trailing anomaly columns): the
checklist options are `columns[1:-2]` (every column except `Date` and the two
trailing anomaly-related ones), the default selection is the single first
selectable column, and the date picker's allowed bounds are the table's
min/max `Date` with the default range equal to that full span. -/
theorem C8_layout (df : DataFrame D) (hlen : 4 ≤ (columns df).length) :
    ∃ L, app_layout df = some L ∧
      L.instrument_checklist.options =
        ((columns df).drop 1).take ((columns df).length - 3) ∧
      (∃ first, (columns df)[1]? = some first ∧
        L.instrument_checklist.value = [first]) ∧
      L.instrument_checklist.value.head? = L.instrument_checklist.options.head? ∧
      L.date_picker_range.min_date_allowed = minDate df ∧
      L.date_picker_range.max_date_allowed = maxDate df ∧
      L.date_picker_range.start_date = L.date_picker_range.min_date_allowed ∧
      L.date_picker_range.end_date = L.date_picker_range.max_date_allowed := by
  cases df with
  | mk cols rows =>
    cases cols with
    | nil => simp [columns] at hlen
    | cons c rest =>
      have hr2 : 2 ≤ rest.length := by
        simp only [columns, List.length_cons] at hlen
        omega
      have hget : (columns (⟨c :: rest, rows⟩ : DataFrame D))[1]? = some c := by
        simp [columns]
      refine ⟨{ instrument_checklist :=
                  { options :=
                      (((columns (⟨c :: rest, rows⟩ : DataFrame D)).drop 1).take
                        ((columns (⟨c :: rest, rows⟩ : DataFrame D)).length - 3)),
                    value := [c] },
                date_picker_range :=
                  { min_date_allowed := minDate ⟨c :: rest, rows⟩,
                    max_date_allowed := maxDate ⟨c :: rest, rows⟩,
                    start_date := minDate ⟨c :: rest, rows⟩,
                    end_date := maxDate ⟨c :: rest, rows⟩ } },
        ?_, rfl, ⟨c, hget, rfl⟩, ?_, rfl, rfl, rfl, rfl⟩
      · simp only [app_layout, hget, Option.map_some']
      · show some c = (((columns (⟨c :: rest, rows⟩ : DataFrame D)).drop 1).take
          ((columns (⟨c :: rest, rows⟩ : DataFrame D)).length - 3)).head?
        have h3 : (columns (⟨c :: rest, rows⟩ : DataFrame D)).length - 3 =
            (rest.length - 2) + 1 := by
          simp only [columns, List.length_cons]
          omega
        rw [h3]
        show some c = ((c :: rest).take ((rest.length - 2) + 1)).head?
        rw [List.take_succ_cons]
        rfl

/-- Witness for C8 on the concrete instrument table (five columns in all). -/
theorem C8_layout_witness :
    ∃ L, app_layout exInstr = some L ∧
      L.instrument_checklist.options =
        ((columns exInstr).drop 1).take ((columns exInstr).length - 3) ∧
      (∃ first, (columns exInstr)[1]? = some first ∧
        L.instrument_checklist.value = [first]) ∧
      L.instrument_checklist.value.head? = L.instrument_checklist.options.head? ∧
      L.date_picker_range.min_date_allowed = minDate exInstr ∧
      L.date_picker_range.max_date_allowed = maxDate exInstr ∧
      L.date_picker_range.start_date = L.date_picker_range.min_date_allowed ∧
      L.date_picker_range.end_date = L.date_picker_range.max_date_allowed :=
  C8_layout exInstr (by decide)

/-- C9: the anomaly figure does not depend on the selection: two successful
invocations with the same dates but different selections produce the same
anomaly figure, which is determined by the date-filtered anomaly table alone
and consists of exactly one trace. -/
theorem C9_selection_noninterference (d d2 sh : DataFrame D)
    (sel1 sel2 : List String) (s e : D) (figs1 figs2 : Figures D)
    (h1 : update_graphs d d2 sh sel1 s e = some figs1)
    (h2 : update_graphs d d2 sh sel2 s e = some figs2) :
    figs1.anomaly_score_fig = figs2.anomaly_score_fig ∧
    anomaly_score_fig (filterDates d2 s e) = some figs1.anomaly_score_fig ∧
    ∃ t, figs1.anomaly_score_fig = [t] := by
  have a1 := (update_graphs_eq_some_iff.mp h1).2.2.1
  have a2 := (update_graphs_eq_some_iff.mp h2).2.2.1
  obtain ⟨ys, -, hshape⟩ := anomaly_score_fig_eq_some_iff.mp a1
  exact ⟨Option.some.inj (a1.symm.trans a2), a1, ⟨_, hshape⟩⟩

/-- Witness for C9: selections `["A"]` and `["B"]` over the same interval. -/
theorem C9_selection_noninterference_witness :
    ∃ figs1 figs2,
      update_graphs exInstr exAnom exShap ["A"] (1 : ℕ) 3 = some figs1 ∧
      update_graphs exInstr exAnom exShap ["B"] 1 3 = some figs2 ∧
      figs1.anomaly_score_fig = figs2.anomaly_score_fig ∧
      anomaly_score_fig (filterDates exAnom 1 3) = some figs1.anomaly_score_fig ∧
      ∃ t, figs1.anomaly_score_fig = [t] := by
  obtain ⟨f1, hf1⟩ := @update_graphs_isSome ℕ _ exInstr exAnom exShap
    ["A"] 1 3 (by decide) (by decide) (by decide)
  obtain ⟨f2, hf2⟩ := @update_graphs_isSome ℕ _ exInstr exAnom exShap
    ["B"] 1 3 (by decide) (by decide) (by decide)
  exact ⟨f1, f2, hf1, hf2,
    C9_selection_noninterference exInstr exAnom exShap ["A"] ["B"] 1 3 f1 f2
      hf1 hf2⟩

/-- C10: the callback validates nothing about the selection: whenever every
selected name is a column of both the instrument table and the SHAP table
(and the anomaly table has its `anomaly_score` column), every column access
succeeds and the callback returns a result; but with a selection containing
the name `ghost`, which is no column of the instrument table, the callback
fails with a lookup error instead of rendering. -/
theorem C10_no_selection_validation :
    (∀ (E : Type) [LinearOrder E] (d d2 sh : DataFrame E)
        (sel : List String) (s e : E),
      (∀ a ∈ sel, a ∈ d.cols ∧ a ∈ sh.cols) → "anomaly_score" ∈ d2.cols →
      (update_graphs d d2 sh sel s e).isSome = true) ∧
    update_graphs exInstr exAnom exShap ["A", "ghost"] 1 3 = none := by
  constructor
  · intro E _ d d2 sh sel s e hsel han
    obtain ⟨figs, h⟩ := update_graphs_isSome (fun a ha => (hsel a ha).1)
      (fun a ha => (hsel a ha).2) han
    rw [h]
    rfl
  · rfl

/-- Witness for C10's universal part at concrete tables and selection. -/
theorem C10_no_selection_validation_witness :
    (update_graphs exInstr exAnom exShap ["A", "B"] (1 : ℕ) 3).isSome = true :=
  C10_no_selection_validation.1 ℕ exInstr exAnom exShap ["A", "B"] 1 3
    (by decide) (by decide)

end SolarDashboard
